import Mathlib

/-
Verification of the drp_ga1d Galactic Archaeology 1D abundance pipeline
(Subaru-PFS/drp_ga1d) against its natural-language specification.

The repository ships only a README and the usage notebook pfs_drp1d_ga.ipynb;
the implementation modules (pfs_io.py, pfs_1d_abund.py, pfs_utilities.py,
pfs_phot.py, pfs_read_synth.py) are not part of the provided source.  Where a
definition embeds behaviour of such a missing module, its doc comment starts
with "Modelled from the spec:" and names the missing module; the model follows
the spec's and the notebook's words (including the notebook's printed record
and its inline comments) and nothing else.  Floating-point NaN sentinels are
represented by `none` in `Option ℚ`; numeric data is represented by `ℚ`.
-/

/-- Chi-squared statistic of an observed (continuum-normalized) spectrum
against a synthetic spectrum, weighted pointwise by inverse variance:
the sum over pixels of ivar * (obs - synth)^2. -/
def chiSq (spec ivar synth : List ℚ) : ℚ :=
  (((spec.zip ivar).zip synth).map (fun pr => pr.1.2 * (pr.1.1 - pr.2) ^ 2)).sum

/-- Left fold that keeps the element with the strictly smaller value of `f`,
seeded with `x`: the argmin of `f` over `x :: xs` (first minimizer wins). -/
def argminBy {α : Type} (f : α → ℚ) (x : α) (xs : List α) : α :=
  xs.foldl (fun b y => if f y < f b then y else b) x

theorem argminBy_mem {α : Type} (f : α → ℚ) (x : α) (xs : List α) :
    argminBy f x xs ∈ x :: xs := by
  induction xs generalizing x with
  | nil => simp [argminBy]
  | cons y ys ih =>
    simp only [argminBy, List.foldl_cons]
    by_cases h : f y < f x
    · simp only [if_pos h]
      exact List.mem_cons_of_mem x (ih y)
    · simp only [if_neg h]
      rcases List.mem_cons.mp (ih x) with h1 | h1
      · exact List.mem_cons.mpr (Or.inl h1)
      · exact List.mem_cons.mpr (Or.inr (List.mem_cons_of_mem y h1))

theorem argminBy_le {α : Type} (f : α → ℚ) (x : α) (xs : List α) :
    ∀ y ∈ x :: xs, f (argminBy f x xs) ≤ f y := by
  induction xs generalizing x with
  | nil =>
    intro y hy
    rcases List.mem_cons.mp hy with rfl | h1
    · exact le_refl _
    · exact absurd h1 (List.not_mem_nil y)
  | cons z zs ih =>
    intro y hy
    simp only [argminBy, List.foldl_cons]
    by_cases h : f z < f x
    · simp only [if_pos h]
      rcases List.mem_cons.mp hy with rfl | h1
      · exact le_trans (ih z z (List.mem_cons_self z zs)) (le_of_lt h)
      · exact ih z y h1
    · simp only [if_neg h]
      rcases List.mem_cons.mp hy with rfl | h1
      · exact ih y y (List.mem_cons_self y zs)
      · rcases List.mem_cons.mp h1 with rfl | h2
        · exact le_trans (ih x x (List.mem_cons_self x zs)) (not_lt.mp h)
        · exact ih x y (List.mem_cons_of_mem x h2)

/-- Modelled from the spec: one node of the continuum-normalized synthetic
spectral grid (pfs_read_synth.py and the grids of Escala et al. 2019 / Kirby
et al. 2008 are not in the provided source).  A node carries its position in
the five-dimensional parameter space (temperature, gravity, microturbulence,
metallicity, alpha abundance) together with its synthetic spectrum. -/
structure GridNode where
  teff : ℚ
  logg : ℚ
  vturb : ℚ
  mh : ℚ
  alphafe : ℚ
  synth : List ℚ
deriving DecidableEq

/-- Linear interpolation between two grid nodes with weight `t`, applied to
every parameter coordinate and pointwise to the synthetic spectra. -/
def interpNode (a b : GridNode) (t : ℚ) : GridNode :=
  { teff := a.teff + t * (b.teff - a.teff)
    logg := a.logg + t * (b.logg - a.logg)
    vturb := a.vturb + t * (b.vturb - a.vturb)
    mh := a.mh + t * (b.mh - a.mh)
    alphafe := a.alphafe + t * (b.alphafe - a.alphafe)
    synth := List.zipWith (fun u v => u + t * (v - u)) a.synth b.synth }

/-- Midpoints interpolated between consecutive nodes of the grid, the extra
candidates the fit searches in addition to the grid nodes themselves. -/
def midNodes (g : GridNode) (gs : List GridNode) : List GridNode :=
  ((g :: gs).zip gs).map (fun pr => interpNode pr.1 pr.2 ((1 : ℚ) / 2))

/-- Candidate set of the chi-squared search: the grid nodes plus the
interpolated midpoints between consecutive nodes. -/
def searchGrid (g : GridNode) (gs : List GridNode) : List GridNode :=
  g :: (gs ++ midNodes g gs)

/-- Argmin of chi-squared over the candidate set `searchGrid g gs`, for a
given continuum-normalized observed spectrum and its inverse variances. -/
def bestFit (spec ivar : List ℚ) (g : GridNode) (gs : List GridNode) : GridNode :=
  argminBy (fun nd => chiSq spec ivar nd.synth) g (gs ++ midNodes g gs)

/-- Mean of a list of rationals (0 for the empty list). -/
def listMean (xs : List ℚ) : ℚ := xs.sum / (xs.length : ℚ)

/-- Modelled from the spec: the initial continuum estimate of the observed
flux (the continuum-estimation code of pfs_1d_abund.py is not in the provided
source); modelled as the flat continuum at the mean observed flux. -/
def initContOf (obs : List ℚ) : List ℚ :=
  obs.map (fun _ => listMean obs)

/-- Pointwise continuum normalization of the observed flux: each pixel is
divided by the continuum estimate (pixels with zero continuum give 0). -/
def contNormalize (obs cont : List ℚ) : List ℚ :=
  List.zipWith (fun o c => if c = 0 then 0 else o / c) obs cont

/-- Modelled from the spec: continuum refinement (pfs_1d_abund.py is not in
the provided source) — the continuum estimate is recomputed as the pointwise
ratio of the observed flux to the current best-fit synthetic spectrum. -/
def refineCont (obs synth : List ℚ) : List ℚ :=
  List.zipWith (fun o s => if s = 0 then 0 else o / s) obs synth

/-- Modelled from the spec: the iterative continuum-refinement loop of the
fitting core (pfs_1d_abund.py is not in the provided source).  Each round
normalizes the observed flux by the current continuum, finds the chi-squared
best candidate, and refines the continuum from that candidate's synthetic
spectrum; the result is the final continuum and the final best candidate. -/
def iterFit (obs ivar : List ℚ) (g : GridNode) (gs : List GridNode) :
    Nat → List ℚ → List ℚ × GridNode
  | 0, cont => (cont, bestFit (contNormalize obs cont) ivar g gs)
  | n + 1, cont =>
      iterFit obs ivar g gs n
        (refineCont obs (bestFit (contNormalize obs cont) ivar g gs).synth)

theorem iterFit_snd (obs ivar : List ℚ) (g : GridNode) (gs : List GridNode) :
    ∀ (n : Nat) (cont : List ℚ),
      (iterFit obs ivar g gs n cont).2 =
        bestFit (contNormalize obs (iterFit obs ivar g gs n cont).1) ivar g gs := by
  intro n
  induction n with
  | zero => intro cont; rfl
  | succ n ih => intro cont; exact ih _

/-- Final continuum-normalized observed spectrum after `n` rounds of
continuum refinement starting from the initial continuum estimate. -/
def fittedSpec (obs ivar : List ℚ) (g : GridNode) (gs : List GridNode) (n : Nat) : List ℚ :=
  contNormalize obs (iterFit obs ivar g gs n (initContOf obs)).1

/-- Grid candidate selected by the fit after `n` rounds of continuum
refinement. -/
def fittedNode (obs ivar : List ℚ) (g : GridNode) (gs : List GridNode) (n : Nat) : GridNode :=
  (iterFit obs ivar g gs n (initContOf obs)).2

theorem fittedNode_mem (obs ivar : List ℚ) (g : GridNode) (gs : List GridNode) (n : Nat) :
    fittedNode obs ivar g gs n ∈ searchGrid g gs := by
  rw [show fittedNode obs ivar g gs n
        = argminBy (fun nd => chiSq (fittedSpec obs ivar g gs n) ivar nd.synth) g
            (gs ++ midNodes g gs)
      from iterFit_snd obs ivar g gs n (initContOf obs)]
  exact argminBy_mem _ _ _

theorem fittedNode_min (obs ivar : List ℚ) (g : GridNode) (gs : List GridNode) (n : Nat) :
    ∀ q ∈ searchGrid g gs,
      chiSq (fittedSpec obs ivar g gs n) ivar (fittedNode obs ivar g gs n).synth ≤
        chiSq (fittedSpec obs ivar g gs n) ivar q.synth := by
  intro q hq
  simp only [searchGrid] at hq
  rw [show fittedNode obs ivar g gs n
        = argminBy (fun nd => chiSq (fittedSpec obs ivar g gs n) ivar nd.synth) g
            (gs ++ midNodes g gs)
      from iterFit_snd obs ivar g gs n (initContOf obs)]
  exact argminBy_le (fun nd => chiSq (fittedSpec obs ivar g gs n) ivar nd.synth) g
    (gs ++ midNodes g gs) q hq

/-- Zero-pad the decimal representation of `n` on the left to width `w`. -/
def zeroPad (w n : Nat) : String :=
  String.mk (List.replicate (w - (Nat.repr n).length) '0') ++ Nat.repr n

/-- Modelled from the spec: the hexadecimal hash token that ends
`fileNameFormat` (the hashing code of pfs_io.py is not in the provided
source).  It is modelled as a pure function of the identifier arguments,
returning the token observed in the notebook's printed record for the
example identifiers; only this single output is evidenced. -/
def hashToken (_catId _tract : Nat) (_patch : String) (_objId _visit : Nat) : String :=
  "0x8cf7641568bdb4ab"

/-- Modelled from the spec: the `fileNameFormat` identifier string built by
pfs_io.py (not in the provided source), following the notebook's printed
record: dash-joined catId zero-padded to 3 digits, tract to 5, the patch
string, objId to 16, visit to 3, and the final hexadecimal hash token. -/
def mkFileNameFormat (catId tract : Nat) (patch : String) (objId visit : Nat) : String :=
  zeroPad 3 catId ++ "-" ++ zeroPad 5 tract ++ "-" ++ patch ++ "-" ++
    zeroPad 16 objId ++ "-" ++ zeroPad 3 visit ++ "-" ++
    hashToken catId tract patch objId visit

/-- Modelled from the spec: the PFS object dictionary, the unified in-memory
record holding per-target spectroscopic, photometric, and derived abundance
fields (pfs_io.py is not in the provided source; the fields are exactly the
keys of the notebook's printed record).  Scalar quantities whose value may be
the NaN sentinel are `Option ℚ` with `none` for NaN; the Python key
"2mass_id" is spelled `twomass_id` because a Lean name cannot start with a
digit. -/
structure PFS where
  fileNameFormat : String
  distance : Option ℚ
  vhelio : Option ℚ
  verr : Option ℚ
  p_vhelio : List (List ℚ)
  vtemplate : List ℚ
  vchi : Option ℚ
  vflag : Nat
  sn : Option ℚ
  combined_flux : List ℚ
  combined_wvl : List ℚ
  wvl : List ℚ
  flux : List ℚ
  ivar : List ℚ
  sky : List ℚ
  obj_id : Nat
  ra : ℚ
  dec : ℚ
  mag : List (Option ℚ)
  filter : List String
  teffphot : List ℚ
  teffphoterr : List ℚ
  loggphot : List ℚ
  loggphoterr : List ℚ
  vturbphot : List ℚ
  mhphot : List ℚ
  initcont : List ℚ
  refinedcont : List ℚ
  teff : Option ℚ
  logg : Option ℚ
  vturb : Option ℚ
  mh : Option ℚ
  alphafe : Option ℚ
  feh : Option ℚ
  cfe : Option ℚ
  mgfe : Option ℚ
  cafe : Option ℚ
  sife : Option ℚ
  tife : Option ℚ
  mnfe : Option ℚ
  cofe : Option ℚ
  nife : Option ℚ
  bafe : Option ℚ
  tefferr : Option ℚ
  loggerr : Option ℚ
  vturberr : Option ℚ
  mherr : Option ℚ
  alphafeerr : Option ℚ
  feherr : Option ℚ
  cfeerr : Option ℚ
  mgfeerr : Option ℚ
  cafeerr : Option ℚ
  sifeerr : Option ℚ
  tifeerr : Option ℚ
  mnfeerr : Option ℚ
  cofeerr : Option ℚ
  nifeerr : Option ℚ
  bafeerr : Option ℚ
  gaia_id : String
  twomass_id : String

/-- Key list of the PFS object dictionary, in the order printed by
`pfs.keys()` in the notebook.  Python dict key order is fixed by the record's
construction, so the list is the same for every record. -/
def PFS.keys (_ : PFS) : List String :=
  ["fileNameFormat", "distance", "vhelio", "verr", "p_vhelio", "vtemplate",
   "vchi", "vflag", "sn", "combined_flux", "combined_wvl", "wvl", "flux",
   "ivar", "sky", "obj_id", "ra", "dec", "mag", "filter", "teffphot",
   "teffphoterr", "loggphot", "loggphoterr", "vturbphot", "mhphot",
   "initcont", "refinedcont", "teff", "logg", "vturb", "mh", "alphafe",
   "feh", "cfe", "mgfe", "cafe", "sife", "tife", "mnfe", "cofe", "nife",
   "bafe", "tefferr", "loggerr", "vturberr", "mherr", "alphafeerr",
   "feherr", "cfeerr", "mgfeerr", "cafeerr", "sifeerr", "tifeerr",
   "mnfeerr", "cofeerr", "nifeerr", "bafeerr", "gaia_id", "2mass_id"]

/-- Modelled from the spec: the per-object contents of the pfsObject* and
pfsConfig* FITS files that Read.read_fits loads (the FITS parsing code of
pfs_io.py is not in the provided source; file-format parsing is explicitly
out of the spec's scope, so the file contents are an abstract input). -/
structure RawInput where
  distance : Option ℚ
  vhelio : Option ℚ
  verr : Option ℚ
  vchi : Option ℚ
  sn : Option ℚ
  p_vhelio : List (List ℚ)
  vtemplate : List ℚ
  combined_flux : List ℚ
  combined_wvl : List ℚ
  wvl : List ℚ
  flux : List ℚ
  ivar : List ℚ
  sky : List ℚ
  ra : ℚ
  dec : ℚ
  mag : List (Option ℚ)
  filter : List String
  teffphot : List ℚ
  teffphoterr : List ℚ
  loggphot : List ℚ
  loggphoterr : List ℚ
  vturbphot : List ℚ
  mhphot : List ℚ
  gaia_id : String
  twomass_id : String

namespace Read

/-- Modelled from the spec: `Read.read_fits` of pfs_io.py (not in the
provided source) constructs the PFS object dictionary for one object from the
identifier arguments and the loaded file contents, with every fitted-output
keyword initialized to the NaN sentinel, the velocity flag to 1, and the
continuum arrays to zeros, exactly as in the notebook's printed record. -/
def read_fits (catId tract : Nat) (patch : String) (objId visit : Nat)
    (raw : RawInput) : PFS :=
  { fileNameFormat := mkFileNameFormat catId tract patch objId visit
    distance := raw.distance
    vhelio := raw.vhelio
    verr := raw.verr
    p_vhelio := raw.p_vhelio
    vtemplate := raw.vtemplate
    vchi := raw.vchi
    vflag := 1
    sn := raw.sn
    combined_flux := raw.combined_flux
    combined_wvl := raw.combined_wvl
    wvl := raw.wvl
    flux := raw.flux
    ivar := raw.ivar
    sky := raw.sky
    obj_id := objId
    ra := raw.ra
    dec := raw.dec
    mag := raw.mag
    filter := raw.filter
    teffphot := raw.teffphot
    teffphoterr := raw.teffphoterr
    loggphot := raw.loggphot
    loggphoterr := raw.loggphoterr
    vturbphot := raw.vturbphot
    mhphot := raw.mhphot
    initcont := List.replicate raw.wvl.length 0
    refinedcont := List.replicate raw.wvl.length 0
    teff := none, logg := none, vturb := none, mh := none, alphafe := none
    feh := none, cfe := none, mgfe := none, cafe := none, sife := none
    tife := none, mnfe := none, cofe := none, nife := none, bafe := none
    tefferr := none, loggerr := none, vturberr := none, mherr := none
    alphafeerr := none, feherr := none, cfeerr := none, mgfeerr := none
    cafeerr := none, sifeerr := none, tifeerr := none, mnfeerr := none
    cofeerr := none, nifeerr := none, bafeerr := none
    gaia_id := raw.gaia_id
    twomass_id := raw.twomass_id }

end Read

/-- Modelled from the spec: the per-element wavelength masks of the
specregion folders (not in the provided source); each mask selects the pixels
sensitive to one element, one mask per measured element ratio. -/
structure ElemMasks where
  cfe : List Bool
  mgfe : List Bool
  cafe : List Bool
  sife : List Bool
  tife : List Bool
  mnfe : List Bool
  cofe : List Bool
  nife : List Bool
  bafe : List Bool

/-- Inverse variances restricted to a wavelength mask: pixels outside the
mask get zero weight. -/
def maskWeights (mask : List Bool) (ivar : List ℚ) : List ℚ :=
  List.zipWith (fun b w => if b then w else 0) mask ivar

/-- Chi-squared restricted to the pixels selected by a wavelength mask. -/
def chiSqMasked (mask : List Bool) (spec ivar synth : List ℚ) : ℚ :=
  chiSq spec (maskWeights mask ivar) synth

/-- Modelled from the spec: the measurement of one element ratio
(pfs_1d_abund.py is not in the provided source) — the chi-squared argmin over
the grid using only the element's masked pixels; the abundance coordinate of
the winning node is reported as the element ratio. -/
def elemFit (mask : List Bool) (spec ivar : List ℚ) (g : GridNode)
    (gs : List GridNode) : ℚ :=
  (argminBy (fun nd => chiSqMasked mask spec ivar nd.synth) g gs).alphafe

/-- Modelled from the spec: the uncertainty reported for a fitted quantity
(the error-estimation code of pfs_1d_abund.py is not in the provided source);
modelled as the reduced chi-squared scale of the best fit. -/
def errEst (spec ivar synth : List ℚ) : ℚ :=
  chiSq spec ivar synth / ((spec.length : ℚ) + 1)

/-- Uncertainty of an element-ratio measurement, on the masked pixels. -/
def elemErr (mask : List Bool) (spec ivar : List ℚ) (g : GridNode)
    (gs : List GridNode) : ℚ :=
  errEst spec (maskWeights mask ivar)
    (argminBy (fun nd => chiSqMasked mask spec ivar nd.synth) g gs).synth

/-- Results of one run of the spectral-fitting core: the fitted atmospheric
parameters, the element ratios, their uncertainties, and the initial and
refined continuum estimates. -/
structure FitOutput where
  teff : ℚ
  logg : ℚ
  vturb : ℚ
  mh : ℚ
  alphafe : ℚ
  feh : ℚ
  cfe : ℚ
  mgfe : ℚ
  cafe : ℚ
  sife : ℚ
  tife : ℚ
  mnfe : ℚ
  cofe : ℚ
  nife : ℚ
  bafe : ℚ
  tefferr : ℚ
  loggerr : ℚ
  vturberr : ℚ
  mherr : ℚ
  alphafeerr : ℚ
  feherr : ℚ
  cfeerr : ℚ
  mgfeerr : ℚ
  cafeerr : ℚ
  sifeerr : ℚ
  tifeerr : ℚ
  mnfeerr : ℚ
  cofeerr : ℚ
  nifeerr : ℚ
  bafeerr : ℚ
  initcont : List ℚ
  refinedcont : List ℚ

/-- Modelled from the spec: one full run of the spectral-fitting core of
pfs_1d_abund.py (not in the provided source).  The atmospheric parameters are
the coordinates of the chi-squared argmin over the interpolated grid after
`n` rounds of continuum refinement; [Fe/H] is reported from the metallicity
coordinate; each element ratio is a masked chi-squared argmin; uncertainties
are reduced chi-squared scales. -/
def runFit (obs ivar : List ℚ) (m : ElemMasks) (g : GridNode)
    (gs : List GridNode) (n : Nat) : FitOutput :=
  let r := iterFit obs ivar g gs n (initContOf obs)
  let spec := contNormalize obs r.1
  let b := r.2
  { teff := b.teff
    logg := b.logg
    vturb := b.vturb
    mh := b.mh
    alphafe := b.alphafe
    feh := b.mh
    cfe := elemFit m.cfe spec ivar g gs
    mgfe := elemFit m.mgfe spec ivar g gs
    cafe := elemFit m.cafe spec ivar g gs
    sife := elemFit m.sife spec ivar g gs
    tife := elemFit m.tife spec ivar g gs
    mnfe := elemFit m.mnfe spec ivar g gs
    cofe := elemFit m.cofe spec ivar g gs
    nife := elemFit m.nife spec ivar g gs
    bafe := elemFit m.bafe spec ivar g gs
    tefferr := errEst spec ivar b.synth
    loggerr := errEst spec ivar b.synth
    vturberr := errEst spec ivar b.synth
    mherr := errEst spec ivar b.synth
    alphafeerr := errEst spec ivar b.synth
    feherr := errEst spec ivar b.synth
    cfeerr := elemErr m.cfe spec ivar g gs
    mgfeerr := elemErr m.mgfe spec ivar g gs
    cafeerr := elemErr m.cafe spec ivar g gs
    sifeerr := elemErr m.sife spec ivar g gs
    tifeerr := elemErr m.tife spec ivar g gs
    mnfeerr := elemErr m.mnfe spec ivar g gs
    cofeerr := elemErr m.cofe spec ivar g gs
    nifeerr := elemErr m.nife spec ivar g gs
    bafeerr := elemErr m.bafe spec ivar g gs
    initcont := initContOf obs
    refinedcont := r.1 }

/-- Configuration of a MeasurePFSAbund run: the optional fit_logg flag of
the README (surface gravity as a free parameter), the resolution mode, the
synthetic grid, the element masks, and the number of continuum-refinement
rounds. -/
structure AbundConfig where
  fit_logg : Bool
  mode : String
  grid : List GridNode
  masks : ElemMasks
  nIters : Nat

/-- Modelled from the spec: `MeasurePFSAbund` of pfs_1d_abund.py (not in the
provided source) consumes the PFS object dictionary and returns it with
updated keywords corresponding to the pipeline's outputs: the fitted
parameters, the element ratios, their uncertainties, and the continuum
estimates.  Surface gravity is updated only under the optional fit_logg flag
(README: "an optional flag (fit_logg=True) to measure surface gravity as a
free parameter").  With an empty grid no fit is possible and the record is
returned unchanged.  Python's in-place mutation of the dictionary is
modelled by explicit state passing. -/
def MeasurePFSAbund (cfg : AbundConfig) (p : PFS) : PFS :=
  match cfg.grid with
  | [] => p
  | g :: gs =>
    let out := runFit p.flux p.ivar cfg.masks g gs cfg.nIters
    { p with
      teff := some out.teff
      logg := if cfg.fit_logg then some out.logg else p.logg
      vturb := some out.vturb
      mh := some out.mh
      alphafe := some out.alphafe
      feh := some out.feh
      cfe := some out.cfe
      mgfe := some out.mgfe
      cafe := some out.cafe
      sife := some out.sife
      tife := some out.tife
      mnfe := some out.mnfe
      cofe := some out.cofe
      nife := some out.nife
      bafe := some out.bafe
      tefferr := some out.tefferr
      loggerr := if cfg.fit_logg then some out.loggerr else p.loggerr
      vturberr := some out.vturberr
      mherr := some out.mherr
      alphafeerr := some out.alphafeerr
      feherr := some out.feherr
      cfeerr := some out.cfeerr
      mgfeerr := some out.mgfeerr
      cafeerr := some out.cafeerr
      sifeerr := some out.sifeerr
      tifeerr := some out.tifeerr
      mnfeerr := some out.mnfeerr
      cofeerr := some out.cofeerr
      nifeerr := some out.nifeerr
      bafeerr := some out.bafeerr
      initcont := out.initcont
      refinedcont := out.refinedcont }

/-- Columns of the output pfsAbund* FITS file: every key of the record
except fileNameFormat, per the notebook's note ("although fileNameFormat is
included in the PFS Object dictionary, it is not saved as a column in the
output FITS file"). -/
def outputColumns (p : PFS) : List String :=
  (PFS.keys p).filter (fun s => s != "fileNameFormat")

/-- Path of the output pfsAbund* FITS file inside the output directory. -/
def outFileName (p : PFS) (d : String) : String :=
  d ++ "pfsAbund-" ++ p.fileNameFormat ++ ".fits"

/-- Abstract file-system state: the set of existing directories and the
written files, each file carrying its column names. -/
structure FileSys where
  dirs : List String
  files : List (String × List String)

/-- Modelled from the spec: `write_to` of pfs_io.py (not in the provided
source) serializes the enriched record to a pfsAbund* FITS file in the given
output directory; the directory is created by the code if it does not exist
(notebook: "the output directory, created by the code if it does not
exist"). -/
def PFS.write_to (p : PFS) (d : String) (fs : FileSys) : FileSys :=
  let fs1 : FileSys := if d ∈ fs.dirs then fs else ⟨d :: fs.dirs, fs.files⟩
  ⟨fs1.dirs, (outFileName p d, outputColumns p) :: fs1.files⟩

/-- Stages of the notebook's processing of one object. -/
inductive Step
  | load
  | fit
  | write
deriving DecidableEq, BEq

/-- The notebook's pipeline for one object, instrumented with the list of
stages it executes in order: read_fits (cell 2), MeasurePFSAbund (cell 5),
write_to (cell 6). -/
def runPipelineTraced (catId tract : Nat) (patch : String) (objId visit : Nat)
    (raw : RawInput) (cfg : AbundConfig) (d : String) (fs : FileSys) :
    (PFS × FileSys) × List Step :=
  let p1 := Read.read_fits catId tract patch objId visit raw
  let p2 := MeasurePFSAbund cfg p1
  let fs2 := PFS.write_to p2 d fs
  ((p2, fs2), [Step.load] ++ [Step.fit] ++ [Step.write])

/-- Concrete file contents mirroring the notebook's example object. -/
def sampleRaw : RawInput :=
  { distance := none, vhelio := none, verr := none, vchi := none, sn := none
    p_vhelio := [], vtemplate := [], combined_flux := [], combined_wvl := []
    wvl := [], flux := [], ivar := [], sky := [], ra := 150, dec := 2
    mag := [], filter := ["g", "r", "i", "z", "y"]
    teffphot := [], teffphoterr := [], loggphot := [], loggphoterr := []
    vturbphot := [], mhphot := [], gaia_id := "2345", twomass_id := "6789" }

/-- The record of the notebook's example object: catId 0, tract 0, patch
"0,0", objId 1, visit 1. -/
def samplePFS : PFS := Read.read_fits 0 0 "0,0" 1 1 sampleRaw

/-- Trivial element masks for concrete evaluations. -/
def masks0 : ElemMasks := ⟨[], [], [], [], [], [], [], [], []⟩

/-- A concrete one-pixel grid node for concrete evaluations. -/
def g0 : GridNode :=
  { teff := 5000, logg := 2, vturb := 1, mh := -1, alphafe := 0, synth := [1] }

/-- A concrete one-pixel observed spectrum. -/
def obs0 : List ℚ := [2]

/-- Inverse variances for the concrete one-pixel spectrum. -/
def ivar0 : List ℚ := [1]

/-- The notebook's call `abund.MeasurePFSAbund(pfs, mode=mode)`: the
optional fit_logg keyword is not passed, so it takes its default value
False. -/
def cfg0 : AbundConfig :=
  { fit_logg := false, mode := "lr", grid := [g0], masks := masks0, nIters := 1 }

/-- Claim C1: calling MeasurePFSAbund on a PFS object dictionary leaves the
record (here: the record returned by the explicit state passing that models
Python's in-place mutation) holding parameter estimates for teff, mh, feh,
alphafe and the nine element ratios cfe, mgfe, cafe, sife, tife, mnfe, cofe,
nife, bafe, and for each of these quantities the corresponding uncertainty
field is also written. -/
theorem measure_writes_abundances (fl : Bool) (md : String) (g : GridNode)
    (gs : List GridNode) (m : ElemMasks) (n : Nat) (p : PFS) :
    ((MeasurePFSAbund ⟨fl, md, g :: gs, m, n⟩ p).teff).isSome = true
    ∧ ((MeasurePFSAbund ⟨fl, md, g :: gs, m, n⟩ p).mh).isSome = true
    ∧ ((MeasurePFSAbund ⟨fl, md, g :: gs, m, n⟩ p).feh).isSome = true
    ∧ ((MeasurePFSAbund ⟨fl, md, g :: gs, m, n⟩ p).alphafe).isSome = true
    ∧ ((MeasurePFSAbund ⟨fl, md, g :: gs, m, n⟩ p).cfe).isSome = true
    ∧ ((MeasurePFSAbund ⟨fl, md, g :: gs, m, n⟩ p).mgfe).isSome = true
    ∧ ((MeasurePFSAbund ⟨fl, md, g :: gs, m, n⟩ p).cafe).isSome = true
    ∧ ((MeasurePFSAbund ⟨fl, md, g :: gs, m, n⟩ p).sife).isSome = true
    ∧ ((MeasurePFSAbund ⟨fl, md, g :: gs, m, n⟩ p).tife).isSome = true
    ∧ ((MeasurePFSAbund ⟨fl, md, g :: gs, m, n⟩ p).mnfe).isSome = true
    ∧ ((MeasurePFSAbund ⟨fl, md, g :: gs, m, n⟩ p).cofe).isSome = true
    ∧ ((MeasurePFSAbund ⟨fl, md, g :: gs, m, n⟩ p).nife).isSome = true
    ∧ ((MeasurePFSAbund ⟨fl, md, g :: gs, m, n⟩ p).bafe).isSome = true
    ∧ ((MeasurePFSAbund ⟨fl, md, g :: gs, m, n⟩ p).tefferr).isSome = true
    ∧ ((MeasurePFSAbund ⟨fl, md, g :: gs, m, n⟩ p).mherr).isSome = true
    ∧ ((MeasurePFSAbund ⟨fl, md, g :: gs, m, n⟩ p).feherr).isSome = true
    ∧ ((MeasurePFSAbund ⟨fl, md, g :: gs, m, n⟩ p).alphafeerr).isSome = true
    ∧ ((MeasurePFSAbund ⟨fl, md, g :: gs, m, n⟩ p).cfeerr).isSome = true
    ∧ ((MeasurePFSAbund ⟨fl, md, g :: gs, m, n⟩ p).mgfeerr).isSome = true
    ∧ ((MeasurePFSAbund ⟨fl, md, g :: gs, m, n⟩ p).cafeerr).isSome = true
    ∧ ((MeasurePFSAbund ⟨fl, md, g :: gs, m, n⟩ p).sifeerr).isSome = true
    ∧ ((MeasurePFSAbund ⟨fl, md, g :: gs, m, n⟩ p).tifeerr).isSome = true
    ∧ ((MeasurePFSAbund ⟨fl, md, g :: gs, m, n⟩ p).mnfeerr).isSome = true
    ∧ ((MeasurePFSAbund ⟨fl, md, g :: gs, m, n⟩ p).cofeerr).isSome = true
    ∧ ((MeasurePFSAbund ⟨fl, md, g :: gs, m, n⟩ p).nifeerr).isSome = true
    ∧ ((MeasurePFSAbund ⟨fl, md, g :: gs, m, n⟩ p).bafeerr).isSome = true :=
  ⟨rfl, rfl, rfl, rfl, rfl, rfl, rfl, rfl, rfl, rfl, rfl, rfl, rfl, rfl, rfl,
   rfl, rfl, rfl, rfl, rfl, rfl, rfl, rfl, rfl, rfl, rfl⟩

/-- Claim C2: the fitted parameters of every run of the spectral-fitting
core come from chi-squared minimization of the observed,
continuum-normalized spectrum against the grid of synthetic spectra over the
five-dimensional parameter space, with interpolation between grid nodes (the
candidate set is the grid plus interpolated midpoints) and iterative
continuum refinement (the spectrum is normalized by the `n`-times refined
continuum), and MeasurePFSAbund stores those parameters in the record. -/
theorem fit_is_chi2_argmin (obs ivar : List ℚ) (m : ElemMasks) (g : GridNode)
    (gs : List GridNode) (n : Nat) (fl : Bool) (md : String) (p : PFS) :
    fittedNode obs ivar g gs n ∈ searchGrid g gs
    ∧ (∀ q ∈ searchGrid g gs,
        chiSq (fittedSpec obs ivar g gs n) ivar (fittedNode obs ivar g gs n).synth ≤
          chiSq (fittedSpec obs ivar g gs n) ivar q.synth)
    ∧ (runFit obs ivar m g gs n).teff = (fittedNode obs ivar g gs n).teff
    ∧ (runFit obs ivar m g gs n).logg = (fittedNode obs ivar g gs n).logg
    ∧ (runFit obs ivar m g gs n).vturb = (fittedNode obs ivar g gs n).vturb
    ∧ (runFit obs ivar m g gs n).mh = (fittedNode obs ivar g gs n).mh
    ∧ (runFit obs ivar m g gs n).alphafe = (fittedNode obs ivar g gs n).alphafe
    ∧ (runFit obs ivar m g gs n).refinedcont = (iterFit obs ivar g gs n (initContOf obs)).1
    ∧ (MeasurePFSAbund ⟨fl, md, g :: gs, m, n⟩ p).teff =
        some ((runFit p.flux p.ivar m g gs n).teff)
    ∧ (MeasurePFSAbund ⟨fl, md, g :: gs, m, n⟩ p).mh =
        some ((runFit p.flux p.ivar m g gs n).mh)
    ∧ (MeasurePFSAbund ⟨fl, md, g :: gs, m, n⟩ p).alphafe =
        some ((runFit p.flux p.ivar m g gs n).alphafe) :=
  ⟨fittedNode_mem obs ivar g gs n, fittedNode_min obs ivar g gs n,
   rfl, rfl, rfl, rfl, rfl, rfl, rfl, rfl, rfl⟩

/-- Witness for claim C2 at a concrete one-node grid and one-pixel
spectrum. -/
theorem fit_is_chi2_argmin_witness :
    chiSq (fittedSpec obs0 ivar0 g0 [] 0) ivar0 (fittedNode obs0 ivar0 g0 [] 0).synth ≤
      chiSq (fittedSpec obs0 ivar0 g0 [] 0) ivar0 g0.synth :=
  (fit_is_chi2_argmin obs0 ivar0 masks0 g0 [] 0 false "lr" samplePFS).2.1 g0
    (by simp [searchGrid, midNodes])

/-- Claim C3: the pipeline's control flow is strictly linear for every
processed object: read_fits runs first, MeasurePFSAbund consumes the record
the loader produced, write_to serializes the record the fitter produced, and
the trace of executed stages is exactly load, fit, write, each once. -/
theorem pipeline_linear_flow (catId tract : Nat) (patch : String)
    (objId visit : Nat) (raw : RawInput) (cfg : AbundConfig) (d : String)
    (fs : FileSys) :
    (runPipelineTraced catId tract patch objId visit raw cfg d fs).2 =
      [Step.load, Step.fit, Step.write]
    ∧ ((runPipelineTraced catId tract patch objId visit raw cfg d fs).2).count
        Step.load = 1
    ∧ ((runPipelineTraced catId tract patch objId visit raw cfg d fs).2).count
        Step.fit = 1
    ∧ ((runPipelineTraced catId tract patch objId visit raw cfg d fs).2).count
        Step.write = 1
    ∧ (runPipelineTraced catId tract patch objId visit raw cfg d fs).1.1 =
        MeasurePFSAbund cfg (Read.read_fits catId tract patch objId visit raw)
    ∧ (runPipelineTraced catId tract patch objId visit raw cfg d fs).1.2 =
        PFS.write_to
          (MeasurePFSAbund cfg (Read.read_fits catId tract patch objId visit raw))
          d fs :=
  ⟨rfl, rfl, rfl, rfl, rfl, rfl⟩

/-- Claim C4: Read.read_fits returns a single unified in-memory record
holding the per-object spectroscopic arrays, the photometric fields, the
radial-velocity fields, and (as keys of the record) the derived-abundance
fields with their uncertainties. -/
theorem read_fits_unified_record (catId tract : Nat) (patch : String)
    (objId visit : Nat) (raw : RawInput) :
    (Read.read_fits catId tract patch objId visit raw).wvl = raw.wvl
    ∧ (Read.read_fits catId tract patch objId visit raw).flux = raw.flux
    ∧ (Read.read_fits catId tract patch objId visit raw).ivar = raw.ivar
    ∧ (Read.read_fits catId tract patch objId visit raw).sky = raw.sky
    ∧ (Read.read_fits catId tract patch objId visit raw).combined_flux =
        raw.combined_flux
    ∧ (Read.read_fits catId tract patch objId visit raw).combined_wvl =
        raw.combined_wvl
    ∧ (Read.read_fits catId tract patch objId visit raw).mag = raw.mag
    ∧ (Read.read_fits catId tract patch objId visit raw).filter = raw.filter
    ∧ (Read.read_fits catId tract patch objId visit raw).teffphot = raw.teffphot
    ∧ (Read.read_fits catId tract patch objId visit raw).loggphot = raw.loggphot
    ∧ (Read.read_fits catId tract patch objId visit raw).vhelio = raw.vhelio
    ∧ (Read.read_fits catId tract patch objId visit raw).verr = raw.verr
    ∧ (["wvl", "flux", "ivar", "sky", "combined_flux", "combined_wvl", "mag",
        "filter", "teffphot", "loggphot", "vhelio", "verr", "teff", "mh",
        "feh", "alphafe", "cfe", "mgfe", "cafe", "sife", "tife", "mnfe",
        "cofe", "nife", "bafe", "tefferr", "mherr", "feherr",
        "alphafeerr"].all
          (fun k =>
            (PFS.keys (Read.read_fits catId tract patch objId visit raw)).contains
              k)) = true :=
  ⟨rfl, rfl, rfl, rfl, rfl, rfl, rfl, rfl, rfl, rfl, rfl, rfl, rfl⟩

/-- Claim C5 (frame): MeasurePFSAbund leaves every field it does not
estimate unchanged — the spectroscopic input arrays, the radial-velocity
fields, and the photometric fields all keep the value they had before the
fitter ran. -/
theorem measure_frame_preserved (cfg : AbundConfig) (p : PFS) :
    (MeasurePFSAbund cfg p).fileNameFormat = p.fileNameFormat
    ∧ (MeasurePFSAbund cfg p).distance = p.distance
    ∧ (MeasurePFSAbund cfg p).vhelio = p.vhelio
    ∧ (MeasurePFSAbund cfg p).verr = p.verr
    ∧ (MeasurePFSAbund cfg p).p_vhelio = p.p_vhelio
    ∧ (MeasurePFSAbund cfg p).vtemplate = p.vtemplate
    ∧ (MeasurePFSAbund cfg p).vchi = p.vchi
    ∧ (MeasurePFSAbund cfg p).vflag = p.vflag
    ∧ (MeasurePFSAbund cfg p).sn = p.sn
    ∧ (MeasurePFSAbund cfg p).combined_flux = p.combined_flux
    ∧ (MeasurePFSAbund cfg p).combined_wvl = p.combined_wvl
    ∧ (MeasurePFSAbund cfg p).wvl = p.wvl
    ∧ (MeasurePFSAbund cfg p).flux = p.flux
    ∧ (MeasurePFSAbund cfg p).ivar = p.ivar
    ∧ (MeasurePFSAbund cfg p).sky = p.sky
    ∧ (MeasurePFSAbund cfg p).obj_id = p.obj_id
    ∧ (MeasurePFSAbund cfg p).ra = p.ra
    ∧ (MeasurePFSAbund cfg p).dec = p.dec
    ∧ (MeasurePFSAbund cfg p).mag = p.mag
    ∧ (MeasurePFSAbund cfg p).filter = p.filter
    ∧ (MeasurePFSAbund cfg p).teffphot = p.teffphot
    ∧ (MeasurePFSAbund cfg p).teffphoterr = p.teffphoterr
    ∧ (MeasurePFSAbund cfg p).loggphot = p.loggphot
    ∧ (MeasurePFSAbund cfg p).loggphoterr = p.loggphoterr
    ∧ (MeasurePFSAbund cfg p).vturbphot = p.vturbphot
    ∧ (MeasurePFSAbund cfg p).mhphot = p.mhphot
    ∧ (MeasurePFSAbund cfg p).gaia_id = p.gaia_id
    ∧ (MeasurePFSAbund cfg p).twomass_id = p.twomass_id := by
  rcases cfg with ⟨fl, md, grid, m, n⟩
  cases grid with
  | nil =>
    exact ⟨rfl, rfl, rfl, rfl, rfl, rfl, rfl, rfl, rfl, rfl, rfl, rfl, rfl,
      rfl, rfl, rfl, rfl, rfl, rfl, rfl, rfl, rfl, rfl, rfl, rfl, rfl, rfl, rfl⟩
  | cons g gs =>
    exact ⟨rfl, rfl, rfl, rfl, rfl, rfl, rfl, rfl, rfl, rfl, rfl, rfl, rfl,
      rfl, rfl, rfl, rfl, rfl, rfl, rfl, rfl, rfl, rfl, rfl, rfl, rfl, rfl, rfl⟩

/-- Counterexample for claim C6: not every key of the record appears as a
column of the output file — fileNameFormat is a key of the notebook's
example record but is not among the output columns. -/
theorem write_to_drops_fileNameFormat_cex :
    ¬ ∀ k ∈ PFS.keys samplePFS, k ∈ outputColumns samplePFS := by
  intro h
  exact absurd (h "fileNameFormat" (by decide)) (by decide)

/-- Claim C6 as amended: write_to stores the enriched record as a columnar
file in which every key of the record except fileNameFormat appears as a
column. -/
theorem write_to_columns (p : PFS) (d : String) (fs : FileSys) (k : String)
    (hk : k ∈ PFS.keys p) (hne : k ≠ "fileNameFormat") :
    k ∈ outputColumns p
    ∧ (outFileName p d, outputColumns p) ∈ (PFS.write_to p d fs).files := by
  refine ⟨List.mem_filter.mpr ⟨hk, ?_⟩, ?_⟩
  · simpa using hne
  · show _ ∈ (outFileName p d, outputColumns p) :: _
    exact List.mem_cons_self _ _

/-- Witness for the amended claim C6 at the notebook's example record and
the key "teff". -/
theorem write_to_columns_witness :
    "teff" ∈ outputColumns samplePFS
    ∧ (outFileName samplePFS "out_abund/lr/", outputColumns samplePFS) ∈
        (PFS.write_to samplePFS "out_abund/lr/" (FileSys.mk [] [])).files :=
  write_to_columns samplePFS "out_abund/lr/" (FileSys.mk [] []) "teff"
    (by decide) (by decide)

/-- Counterexample for claim C7: on the notebook's default call (fit_logg
not passed, hence False) the fitter runs over a nonempty grid and still
writes no logg estimate — logg is the NaN sentinel before and after. -/
theorem measure_logg_default_cex :
    samplePFS.logg = none ∧ (MeasurePFSAbund cfg0 samplePFS).logg = none :=
  ⟨rfl, rfl⟩

/-- Claim C7 as amended: a surface-gravity estimate (and its uncertainty) is
written back into the record exactly when the optional fit_logg flag is
True; with the default False the logg fields keep their prior values. -/
theorem measure_logg_flag (md : String) (g : GridNode) (gs : List GridNode)
    (m : ElemMasks) (n : Nat) (p : PFS) :
    (MeasurePFSAbund ⟨true, md, g :: gs, m, n⟩ p).logg =
        some ((runFit p.flux p.ivar m g gs n).logg)
    ∧ (MeasurePFSAbund ⟨true, md, g :: gs, m, n⟩ p).loggerr =
        some ((runFit p.flux p.ivar m g gs n).loggerr)
    ∧ (MeasurePFSAbund ⟨false, md, g :: gs, m, n⟩ p).logg = p.logg
    ∧ (MeasurePFSAbund ⟨false, md, g :: gs, m, n⟩ p).loggerr = p.loggerr :=
  ⟨rfl, rfl, rfl, rfl⟩

/-- Claim C8: every record freshly constructed by Read.read_fits has each
scalar fitted-output field (teff, logg, vturb, mh, alphafe, feh, the nine
element ratios) and each of their uncertainty fields initialized to the NaN
sentinel, and the velocity flag vflag initialized to 1. -/
theorem read_fits_initial_values (catId tract : Nat) (patch : String)
    (objId visit : Nat) (raw : RawInput) :
    (Read.read_fits catId tract patch objId visit raw).teff = none
    ∧ (Read.read_fits catId tract patch objId visit raw).logg = none
    ∧ (Read.read_fits catId tract patch objId visit raw).vturb = none
    ∧ (Read.read_fits catId tract patch objId visit raw).mh = none
    ∧ (Read.read_fits catId tract patch objId visit raw).alphafe = none
    ∧ (Read.read_fits catId tract patch objId visit raw).feh = none
    ∧ (Read.read_fits catId tract patch objId visit raw).cfe = none
    ∧ (Read.read_fits catId tract patch objId visit raw).mgfe = none
    ∧ (Read.read_fits catId tract patch objId visit raw).cafe = none
    ∧ (Read.read_fits catId tract patch objId visit raw).sife = none
    ∧ (Read.read_fits catId tract patch objId visit raw).tife = none
    ∧ (Read.read_fits catId tract patch objId visit raw).mnfe = none
    ∧ (Read.read_fits catId tract patch objId visit raw).cofe = none
    ∧ (Read.read_fits catId tract patch objId visit raw).nife = none
    ∧ (Read.read_fits catId tract patch objId visit raw).bafe = none
    ∧ (Read.read_fits catId tract patch objId visit raw).tefferr = none
    ∧ (Read.read_fits catId tract patch objId visit raw).loggerr = none
    ∧ (Read.read_fits catId tract patch objId visit raw).vturberr = none
    ∧ (Read.read_fits catId tract patch objId visit raw).mherr = none
    ∧ (Read.read_fits catId tract patch objId visit raw).alphafeerr = none
    ∧ (Read.read_fits catId tract patch objId visit raw).feherr = none
    ∧ (Read.read_fits catId tract patch objId visit raw).cfeerr = none
    ∧ (Read.read_fits catId tract patch objId visit raw).mgfeerr = none
    ∧ (Read.read_fits catId tract patch objId visit raw).cafeerr = none
    ∧ (Read.read_fits catId tract patch objId visit raw).sifeerr = none
    ∧ (Read.read_fits catId tract patch objId visit raw).tifeerr = none
    ∧ (Read.read_fits catId tract patch objId visit raw).mnfeerr = none
    ∧ (Read.read_fits catId tract patch objId visit raw).cofeerr = none
    ∧ (Read.read_fits catId tract patch objId visit raw).nifeerr = none
    ∧ (Read.read_fits catId tract patch objId visit raw).bafeerr = none
    ∧ (Read.read_fits catId tract patch objId visit raw).vflag = 1 :=
  ⟨rfl, rfl, rfl, rfl, rfl, rfl, rfl, rfl, rfl, rfl, rfl, rfl, rfl, rfl, rfl,
   rfl, rfl, rfl, rfl, rfl, rfl, rfl, rfl, rfl, rfl, rfl, rfl, rfl, rfl, rfl,
   rfl⟩

/-- Claim C9: if the output directory does not exist, write_to creates it
and still writes the output file; if it already exists it is reused
unchanged. -/
theorem write_to_creates_dir (p : PFS) (d : String) (fs : FileSys) :
    d ∈ (PFS.write_to p d fs).dirs
    ∧ (outFileName p d, outputColumns p) ∈ (PFS.write_to p d fs).files
    ∧ (d ∈ fs.dirs → (PFS.write_to p d fs).dirs = fs.dirs)
    ∧ (d ∉ fs.dirs → (PFS.write_to p d fs).dirs = d :: fs.dirs) := by
  by_cases h : d ∈ fs.dirs
  · exact ⟨by simp [PFS.write_to, h], by simp [PFS.write_to, h],
      fun _ => by simp [PFS.write_to, h], fun h2 => absurd h h2⟩
  · exact ⟨by simp [PFS.write_to, h], by simp [PFS.write_to, h],
      fun h2 => absurd h2 h, fun _ => by simp [PFS.write_to, h]⟩

/-- Witness for claim C9: on an empty file system the output directory does
not exist, and write_to creates it. -/
theorem write_to_creates_dir_witness :
    ("out_abund/lr/" ∉ (FileSys.mk [] []).dirs)
    ∧ (PFS.write_to samplePFS "out_abund/lr/" (FileSys.mk [] [])).dirs =
        "out_abund/lr/" :: (FileSys.mk [] []).dirs :=
  ⟨by decide,
   (write_to_creates_dir samplePFS "out_abund/lr/" (FileSys.mk [] [])).2.2.2
     (by decide)⟩

/-- Claim C10: fileNameFormat is a deterministic function of the identifier
arguments alone (the same identifiers always give the same string, whatever
the file contents), it is the dash-joined concatenation of catId zero-padded
to 3 digits, tract to 5 digits, the patch string, objId to 16 digits, visit
to 3 digits and the final hexadecimal hash token, and on the notebook's
example identifiers it is the printed string. -/
theorem read_fits_fileNameFormat (catId tract : Nat) (patch : String)
    (objId visit : Nat) (raw raw2 : RawInput) :
    (Read.read_fits catId tract patch objId visit raw).fileNameFormat =
      (Read.read_fits catId tract patch objId visit raw2).fileNameFormat
    ∧ (Read.read_fits catId tract patch objId visit raw).fileNameFormat =
        zeroPad 3 catId ++ "-" ++ zeroPad 5 tract ++ "-" ++ patch ++ "-" ++
          zeroPad 16 objId ++ "-" ++ zeroPad 3 visit ++ "-" ++
          hashToken catId tract patch objId visit
    ∧ (Read.read_fits 0 0 "0,0" 1 1 sampleRaw).fileNameFormat =
        "000-00000-0,0-0000000000000001-001-0x8cf7641568bdb4ab" :=
  ⟨rfl, rfl, by decide⟩
